import Mathlib

/-!
Verification of the weather-platform ingestion and aggregation pipeline.

The Go sources are embedded shallowly:
  * `internal/models/weather.go` — `RawWeatherRecord`, `WeatherObservation`,
    `ToObservation` (sentinel handling, unit conversion, date validation);
  * `internal/services/ingestion_service.go` — `parseLine`, `ingestFile`,
    `IngestDirectory` (the per-file streaming loop with batching);
  * `internal/services/statistics_service.go` — `CalculateAllStatistics`;
  * `internal/repository/weather_repository.go` — the aggregate semantics of
    the SQL in `CalculateYearlyStatistics` and the pagination semantics of
    `ListStations`.

Real numbers (Go `float64`) are modelled by `Rat`: every conversion in the
source divides an integer by 10 or 100, so the rational model captures the
intended exact values.  Timestamps (`CreatedAt`/`UpdatedAt`) carry no logic
and are omitted.  Database effects are abstracted as explicit function
parameters (`flush`, `calcF`, `save`), and the repository layer's SQL is
embedded by its documented relational semantics.
-/

deriving instance DecidableEq for Except

namespace WeatherPlatform

/-! ## Calendar dates (Go `time.Parse("20060102", s)` semantics) -/

/-- A calendar date as produced by parsing a `YYYYMMDD` string. -/
structure CalDate where
  year : Nat
  month : Nat
  day : Nat
deriving DecidableEq, Repr

/-- Gregorian leap-year rule used by Go `time.isLeap`. -/
def isLeapYear (y : Nat) : Bool :=
  y % 4 == 0 && (y % 100 != 0 || y % 400 == 0)

/-- Days in a month, as in Go `time.daysIn`. -/
def daysInMonth (y m : Nat) : Nat :=
  if m == 2 then (if isLeapYear y then 29 else 28)
  else if m == 4 || m == 6 || m == 9 || m == 11 then 30
  else 31

/-- Numeric value of a decimal digit character. -/
def digitVal (c : Char) : Nat := c.toNat - 48

/-- Go `time.Parse("20060102", s)` over the character list: four digit
year, two digit month, two digit day, no trailing text, month in 1..12 and
day in range for the month. -/
def parseDate8Chars : List Char → Option CalDate
  | [y1, y2, y3, y4, m1, m2, d1, d2] =>
    if y1.isDigit && y2.isDigit && y3.isDigit && y4.isDigit &&
       m1.isDigit && m2.isDigit && d1.isDigit && d2.isDigit then
      let y := ((digitVal y1 * 10 + digitVal y2) * 10 + digitVal y3) * 10 + digitVal y4
      let m := digitVal m1 * 10 + digitVal m2
      let d := digitVal d1 * 10 + digitVal d2
      if 1 ≤ m && m ≤ 12 && 1 ≤ d && d ≤ daysInMonth y m then
        some ⟨y, m, d⟩
      else
        none
    else
      none
  | _ => none

/-- Go `time.Parse("20060102", s)`.  Returns `none` exactly when Go returns
a parse error. -/
def parseDate8 (s : String) : Option CalDate :=
  parseDate8Chars s.toList

/-- Calendar validity of an 8-digit string, written after the specification:
month between 1 and 12, day between 1 and the length of that month. -/
def validCalendarDigits : List Char → Bool
  | [y1, y2, y3, y4, m1, m2, d1, d2] =>
    let y := ((digitVal y1 * 10 + digitVal y2) * 10 + digitVal y3) * 10 + digitVal y4
    let m := digitVal m1 * 10 + digitVal m2
    let d := digitVal d1 * 10 + digitVal d2
    1 ≤ m && m ≤ 12 && 1 ≤ d && d ≤ daysInMonth y m
  | _ => false

/-- Specification predicate: the date field is exactly 8 digits in
`YYYYMMDD` form denoting a parseable calendar date. -/
def isValidYYYYMMDD (s : String) : Bool :=
  s.length == 8 && s.toList.all Char.isDigit && validCalendarDigits s.toList

/-! ## Data model (`internal/models/weather.go`) -/

/-- `RawWeatherRecord`: one line of an input data file. -/
structure RawWeatherRecord where
  date : String
  maxTemperatureTenths : Int
  minTemperatureTenths : Int
  precipitationTenths : Int
deriving DecidableEq, Repr

/-- `WeatherObservation`: a normalized data point.  `none` models a Go nil
pointer (absent measurement); `CreatedAt` and the surrogate id are omitted. -/
structure WeatherObservation where
  stationID : String
  observationDate : CalDate
  maxTemperatureCelsius : Option Rat
  minTemperatureCelsius : Option Rat
  precipitationCm : Option Rat
deriving DecidableEq, Repr

/-- `ValidationError` from `internal/models/weather.go`. -/
structure ValidationError where
  field : String
  value : String
  message : String
deriving DecidableEq, Repr

/-- `(*RawWeatherRecord).ToObservation`: parse the date, then convert each
raw tenths field unless it equals the sentinel `-9999`; temperatures divide
by 10, precipitation divides by 100. -/
def toObservation (r : RawWeatherRecord) (stationID : String) :
    Except ValidationError WeatherObservation :=
  match parseDate8 r.date with
  | none =>
    .error ⟨"date", r.date, "invalid date format, expected YYYYMMDD"⟩
  | some date =>
    .ok
      { stationID := stationID
        observationDate := date
        maxTemperatureCelsius :=
          if r.maxTemperatureTenths ≠ -9999 then
            some ((r.maxTemperatureTenths : Rat) / 10)
          else
            none
        minTemperatureCelsius :=
          if r.minTemperatureTenths ≠ -9999 then
            some ((r.minTemperatureTenths : Rat) / 10)
          else
            none
        precipitationCm :=
          if r.precipitationTenths ≠ -9999 then
            some ((r.precipitationTenths : Rat) / 100)
          else
            none }

/-! ## Line parsing (`ingestion_service.go`, `parseLine`) -/

/-- Characters trimmed by Go `strings.TrimSpace` (Latin-1 range; the rarely
seen non-Latin-1 Unicode spaces are not modelled). -/
def isGoSpace (c : Char) : Bool :=
  c == ' ' || c == '\t' || c == '\n' || c == '\x0b' || c == '\x0c' ||
  c == '\r' || c.toNat == 0x85 || c.toNat == 0xA0

/-- Go `strings.TrimSpace`. -/
def trimSpace (s : String) : String :=
  String.mk (((s.toList.dropWhile isGoSpace).reverse.dropWhile isGoSpace).reverse)

/-- Decimal digits to a natural number (`none` when empty or non-digit). -/
def digitsToNat (cs : List Char) : Option Nat :=
  if cs.isEmpty then none
  else if cs.all Char.isDigit then
    some (cs.foldl (fun a c => a * 10 + digitVal c) 0)
  else none

/-- Go `strconv.Atoi` (64-bit int): optional sign, nonempty digit run, value
within the signed 64-bit range. -/
def atoi (s : String) : Option Int :=
  match s.toList with
  | '+' :: rest =>
    (digitsToNat rest).bind fun n =>
      if n ≤ 2 ^ 63 - 1 then some (n : Int) else none
  | '-' :: rest =>
    (digitsToNat rest).bind fun n =>
      if n ≤ 2 ^ 63 then some (-(n : Int)) else none
  | cs =>
    (digitsToNat cs).bind fun n =>
      if n ≤ 2 ^ 63 - 1 then some (n : Int) else none

/-- Go `strings.Split(s, "\t")` on the character list: split around every
tab; always returns at least one (possibly empty) field. -/
def splitOnTabChars : List Char → List (List Char)
  | [] => [[]]
  | c :: rest =>
    if c == '\t' then [] :: splitOnTabChars rest
    else
      match splitOnTabChars rest with
      | f :: fs => (c :: f) :: fs
      | [] => [[c]]

/-- Go `strings.Split(line, "\t")`. -/
def splitOnTab (s : String) : List String :=
  (splitOnTabChars s.toList).map String.mk

/-- Error result of `parseLine`: Go wraps either the observed field count or
the `strconv.Atoi` failure for one named field; the full input line never
appears in the error. -/
inductive ParseError where
  | fieldCount (got : Nat)
  | badInt (which : String) (field : String)
deriving DecidableEq, Repr

/-- `(*IngestionService).parseLine`: split on tab, require exactly 4 fields,
parse the three numeric fields as integers after trimming whitespace. -/
def parseLine (line : String) : Except ParseError RawWeatherRecord :=
  match splitOnTab line with
  | [p0, p1, p2, p3] =>
    match atoi (trimSpace p1) with
    | none => .error (.badInt "max temperature" (trimSpace p1))
    | some maxT =>
      match atoi (trimSpace p2) with
      | none => .error (.badInt "min temperature" (trimSpace p2))
      | some minT =>
        match atoi (trimSpace p3) with
        | none => .error (.badInt "precipitation" (trimSpace p3))
        | some precip =>
          .ok ⟨trimSpace p0, maxT, minT, precip⟩
  | parts => .error (.fieldCount parts.length)

/-! ## Per-file ingestion (`ingestion_service.go`, `ingestFile`) -/

/-- `FileIngestionResult`: per-file counters. -/
structure FileIngestionResult where
  totalRecords : Nat
  successfulRecords : Nat
  failedRecords : Nat
deriving DecidableEq, Repr

/-- The scanning loop of `(*IngestionService).ingestFile` over the lines of
one file.  `flush` abstracts `repo.CreateObservationsBatch` (the
transactional batch upsert keyed on station and date): `true` means the
flush committed.  Besides the Go result, the model also returns the trace of
batches handed to `flush`, in call order, the failed attempt included. -/
def ingestLoop (flush : List WeatherObservation → Bool) (batchSize : Nat)
    (stationID : String) :
    List String → FileIngestionResult → List WeatherObservation →
    Except String FileIngestionResult × List (List WeatherObservation)
  | [], res, batch =>
    if batch.isEmpty then (.ok res, [])
    else if flush batch then
      (.ok { res with successfulRecords := res.successfulRecords + batch.length },
       [batch])
    else
      (.error "failed to insert final batch", [batch])
  | line :: rest, res, batch =>
    let res1 := { res with totalRecords := res.totalRecords + 1 }
    match parseLine line with
    | .error _ =>
      ingestLoop flush batchSize stationID rest
        { res1 with failedRecords := res1.failedRecords + 1 } batch
    | .ok record =>
      match toObservation record stationID with
      | .error _ =>
        ingestLoop flush batchSize stationID rest
          { res1 with failedRecords := res1.failedRecords + 1 } batch
      | .ok obs =>
        let batch1 := batch ++ [obs]
        if batchSize ≤ batch1.length then
          if flush batch1 then
            let next := ingestLoop flush batchSize stationID rest
              { res1 with successfulRecords := res1.successfulRecords + batch1.length } []
            (next.1, batch1 :: next.2)
          else
            (.error "failed to insert batch", [batch1])
        else
          ingestLoop flush batchSize stationID rest res1 batch1

/-- Go `filepath.Ext` stripped from a base name, as in
`strings.TrimSuffix(fileName, filepath.Ext(fileName))`. -/
def stripExtension (name : String) : String :=
  let cs := name.toList
  if cs.contains '.' then
    String.mk (((cs.reverse.dropWhile (fun c => c ≠ '.')).drop 1).reverse)
  else
    name

/-- `(*IngestionService).ingestFile` on a file given as its base name and
its list of scanned lines (station creation and I/O errors are outside the
model; a station-creation failure aborts the file before any line is read,
which no claim here depends on). -/
def ingestFile (flush : List WeatherObservation → Bool) (batchSize : Nat)
    (fileName : String) (lines : List String) :
    Except String FileIngestionResult :=
  (ingestLoop flush batchSize (stripExtension fileName) lines ⟨0, 0, 0⟩ []).1

/-- The observations a file's lines normalize to, in order: the records that
pass both `parseLine` and `ToObservation`. -/
def normalizedObs (stationID : String) (lines : List String) :
    List WeatherObservation :=
  lines.filterMap fun line =>
    match parseLine line with
    | .error _ => none
    | .ok record =>
      match toObservation record stationID with
      | .error _ => none
      | .ok obs => some obs

/-! ## Directory ingestion (`ingestion_service.go`, `IngestDirectory`) -/

/-- `IngestionResult`: run-level summary (wall-clock duration omitted). -/
structure IngestionResult where
  totalFiles : Nat
  totalRecords : Nat
  successfulRecords : Nat
  failedRecords : Nat
  errors : List String
deriving DecidableEq, Repr

/-- The error string `IngestDirectory` records for a failed file. -/
def fileErrorMsg (fileName : String) (e : String) : String :=
  "failed to ingest " ++ fileName ++ ": " ++ e

/-- The per-file loop of `IngestDirectory`: a failed file appends one error
string and processing continues; a successful file adds its counters. -/
def processFiles (flush : List WeatherObservation → Bool) (batchSize : Nat) :
    List (String × List String) → IngestionResult → IngestionResult
  | [], acc => acc
  | (name, lines) :: rest, acc =>
    match ingestFile flush batchSize name lines with
    | .error e =>
      processFiles flush batchSize rest
        { acc with errors := acc.errors ++ [fileErrorMsg name e] }
    | .ok fr =>
      processFiles flush batchSize rest
        { acc with
          totalRecords := acc.totalRecords + fr.totalRecords
          successfulRecords := acc.successfulRecords + fr.successfulRecords
          failedRecords := acc.failedRecords + fr.failedRecords }

/-- `(*IngestionService).IngestDirectory` over the candidate files (base
name with lines): zero candidates is fatal, otherwise every file is
processed and the run returns a summary. -/
def ingestDirectory (flush : List WeatherObservation → Bool)
    (batchSize : Nat) (files : List (String × List String)) :
    Except String IngestionResult :=
  if files.isEmpty then .error "no data files found"
  else
    .ok (processFiles flush batchSize files
      { totalFiles := files.length
        totalRecords := 0
        successfulRecords := 0
        failedRecords := 0
        errors := [] })

/-- The error display of `cmd/ingester/main.go`: only the first 10 error
strings are printed. -/
def displayedErrors (errs : List String) : List String :=
  errs.take 10

/-- The overflow summary of `cmd/ingester/main.go`: the count shown by the
final "... and N more errors" line (0 when no overflow line is printed). -/
def overflowCount (errs : List String) : Nat :=
  if errs.length > 10 then errs.length - 10 else 0

/-! ## Statistics (`statistics_service.go`, `weather_repository.go`) -/

/-- `WeatherStatistics` (timestamps and surrogate id omitted). -/
structure WeatherStatistics where
  stationID : String
  year : Nat
  avgMaxTemperatureCelsius : Option Rat
  avgMinTemperatureCelsius : Option Rat
  totalPrecipitationCm : Option Rat
  observationCount : Nat
  validMaxTempCount : Nat
  validMinTempCount : Nat
  validPrecipitationCount : Nat
deriving DecidableEq, Repr

/-- Relational semantics of the SQL aggregate in
`(*weatherRepository).CalculateYearlyStatistics`: over the observation rows
with the given station and year, `COUNT(*)`, `COUNT(col)` per field,
`AVG(col)` over non-null values (SQL `AVG`/`SUM` are `NULL` on an empty
set), and `SUM(precipitation_cm)`. -/
def calculateYearlyStatistics (table : List WeatherObservation)
    (stationID : String) (year : Nat) : WeatherStatistics :=
  let rows := table.filter fun o =>
    o.stationID == stationID && o.observationDate.year == year
  let maxVals := rows.filterMap (fun o => o.maxTemperatureCelsius)
  let minVals := rows.filterMap (fun o => o.minTemperatureCelsius)
  let precipVals := rows.filterMap (fun o => o.precipitationCm)
  { stationID := stationID
    year := year
    avgMaxTemperatureCelsius :=
      if maxVals.isEmpty then none
      else some (maxVals.sum / (maxVals.length : Rat))
    avgMinTemperatureCelsius :=
      if minVals.isEmpty then none
      else some (minVals.sum / (minVals.length : Rat))
    totalPrecipitationCm :=
      if precipVals.isEmpty then none else some precipVals.sum
    observationCount := rows.length
    validMaxTempCount := maxVals.length
    validMinTempCount := minVals.length
    validPrecipitationCount := precipVals.length }

/-- Pagination semantics of `(*weatherRepository).ListStations`: the station
table ordered by station id, `LIMIT limit OFFSET offset`. -/
def listStations (table : List String) (limit offset : Nat) : List String :=
  (table.drop offset).take limit

/-- The year range of `CalculateAllStatistics`:
`for year := 1985; year <= 2014; year++`. -/
def statYears : List Nat := List.range' 1985 30

/-- Trace of one recomputation run: the upsert count (`totalStats`), the
pairs actually saved via `UpsertStatistics`, and every pair visited. -/
structure StatsTrace where
  totalStats : Nat
  saved : List (String × Nat)
  visited : List (String × Nat)
deriving DecidableEq, Repr

/-- The inner year loop of `(*StatisticsService).CalculateAllStatistics` for
one station.  `calcF` abstracts `repo.CalculateYearlyStatistics` and `save`
abstracts `repo.UpsertStatistics` (`false` meaning the upsert failed).  A
`calcF` failure or a `save` failure is skipped with `continue`; a zero
`ObservationCount` skips the save. -/
def calcYears (calcF : String → Nat → Except String WeatherStatistics)
    (save : WeatherStatistics → Bool) (stationID : String) :
    List Nat → StatsTrace
  | [] => ⟨0, [], []⟩
  | y :: ys =>
    match calcF stationID y with
    | .error _ =>
      let t := calcYears calcF save stationID ys
      ⟨t.totalStats, t.saved, (stationID, y) :: t.visited⟩
    | .ok stats =>
      if stats.observationCount > 0 then
        if save stats then
          let t := calcYears calcF save stationID ys
          ⟨t.totalStats + 1, (stationID, y) :: t.saved, (stationID, y) :: t.visited⟩
        else
          let t := calcYears calcF save stationID ys
          ⟨t.totalStats, t.saved, (stationID, y) :: t.visited⟩
      else
        let t := calcYears calcF save stationID ys
        ⟨t.totalStats, t.saved, (stationID, y) :: t.visited⟩

/-- The outer station loop of `CalculateAllStatistics`. -/
def calcStations (calcF : String → Nat → Except String WeatherStatistics)
    (save : WeatherStatistics → Bool) : List String → StatsTrace
  | [] => ⟨0, [], []⟩
  | sid :: rest =>
    let t1 := calcYears calcF save sid statYears
    let t2 := calcStations calcF save rest
    ⟨t1.totalStats + t2.totalStats, t1.saved ++ t2.saved, t1.visited ++ t2.visited⟩

/-- `(*StatisticsService).CalculateAllStatistics`: lists one page of at most
10000 stations (`ListStations(ctx, 10000, 0)`) and runs the nested loops;
after a successful listing the function always returns `nil` error. -/
def calculateAllStatistics (stationTable : List String)
    (calcF : String → Nat → Except String WeatherStatistics)
    (save : WeatherStatistics → Bool) : StatsTrace :=
  calcStations calcF save (listStations stationTable 10000 0)

/-- All station/year pairs of the given stations over `statYears`. -/
def allPairs : List String → List (String × Nat)
  | [] => []
  | sid :: rest => (statYears.map fun y => (sid, y)) ++ allPairs rest

/-! ## Helper lemmas -/

/-- `parseDate8Chars` succeeds exactly on 8 digit characters that form a
valid calendar date. -/
theorem parseDate8Chars_isSome (cs : List Char) :
    (parseDate8Chars cs).isSome =
      ((cs.length == 8) && cs.all Char.isDigit && validCalendarDigits cs) := by
  rcases cs with _ | ⟨a, _ | ⟨b, _ | ⟨c, _ | ⟨d, _ | ⟨e, _ | ⟨f, _ | ⟨g, _ | ⟨h, _ | ⟨i, tl⟩⟩⟩⟩⟩⟩⟩⟩⟩ <;>
    simp only [parseDate8Chars, validCalendarDigits, List.all_cons, List.all_nil,
      List.length_cons, List.length_nil, Option.isSome_none, Option.isSome_some] <;>
    first
      | rfl
      | (split_ifs with h1 h2 <;> simp_all)

/-- `parseDate8` succeeds exactly on valid `YYYYMMDD` strings. -/
theorem parseDate8_isSome_eq (s : String) :
    (parseDate8 s).isSome = isValidYYYYMMDD s := by
  obtain ⟨cs⟩ := s
  rw [parseDate8, parseDate8Chars_isSome, isValidYYYYMMDD]
  rfl

/-- On a valid date string `parseDate8` returns a date. -/
theorem parseDate8_some (s : String) (h : isValidYYYYMMDD s = true) :
    ∃ d, parseDate8 s = some d := by
  have := parseDate8_isSome_eq s
  rw [h] at this
  exact Option.isSome_iff_exists.mp this

/-- On an invalid date string `parseDate8` returns `none`. -/
theorem parseDate8_none (s : String) (h : isValidYYYYMMDD s = false) :
    parseDate8 s = none := by
  have := parseDate8_isSome_eq s
  rw [h] at this
  exact Option.not_isSome_iff_eq_none.mp (by simp [this])

/-- `parseLine` succeeds exactly when the line splits on tab into 4 fields
and the three numeric fields parse as integers after trimming. -/
theorem parseLine_ok_iff (line : String) :
    (∃ r, parseLine line = .ok r) ↔
      (∃ p0 p1 p2 p3, splitOnTab line = [p0, p1, p2, p3] ∧
        (atoi (trimSpace p1)).isSome ∧ (atoi (trimSpace p2)).isSome ∧
        (atoi (trimSpace p3)).isSome) := by
  rcases hsp : splitOnTab line with _ | ⟨p0, _ | ⟨p1, _ | ⟨p2, _ | ⟨p3, _ | ⟨p4, tl⟩⟩⟩⟩⟩
  · simp [parseLine, hsp]
  · simp [parseLine, hsp]
  · simp [parseLine, hsp]
  · simp [parseLine, hsp]
  · rcases h1 : atoi (trimSpace p1) with _ | v1 <;>
      rcases h2 : atoi (trimSpace p2) with _ | v2 <;>
      rcases h3 : atoi (trimSpace p3) with _ | v3 <;>
      simp [parseLine, hsp, h1, h2, h3] <;>
      first
        | exact ⟨p0, p1, p2, p3, ⟨rfl, rfl, rfl, rfl⟩,
            by simp [h1], by simp [h2], by simp [h3]⟩
        | (intros; subst_vars; simp_all)
  · simp [parseLine, hsp]

/-- A line that fails to parse increments the total and failed counters and
leaves the batch untouched; scanning continues with the remaining lines. -/
theorem ingestLoop_parse_error_step (flush : List WeatherObservation → Bool)
    (batchSize : Nat) (stationID line : String) (rest : List String)
    (res : FileIngestionResult) (batch : List WeatherObservation)
    (e : ParseError) (hp : parseLine line = .error e) :
    ingestLoop flush batchSize stationID (line :: rest) res batch =
      ingestLoop flush batchSize stationID rest
        ⟨res.totalRecords + 1, res.successfulRecords, res.failedRecords + 1⟩
        batch := by
  obtain ⟨t, sc, f⟩ := res
  simp only [ingestLoop, hp]

/-- Counter invariant of the scanning loop: on normal completion the total
equals successes plus failures, given that it held on entry with the
pending batch counted as neither. -/
theorem ingestLoop_ok_counts (flush : List WeatherObservation → Bool)
    (batchSize : Nat) (stationID : String) :
    ∀ (lines : List String) (res : FileIngestionResult)
      (batch : List WeatherObservation) (fr : FileIngestionResult),
      (ingestLoop flush batchSize stationID lines res batch).1 = .ok fr →
      res.totalRecords = res.successfulRecords + res.failedRecords + batch.length →
      fr.totalRecords = fr.successfulRecords + fr.failedRecords := by
  intro lines
  induction lines with
  | nil =>
    intro res batch fr h hinv
    by_cases hb : batch.isEmpty
    · simp only [ingestLoop, hb, if_true] at h
      obtain rfl : res = fr := by simpa using h
      have : batch.length = 0 := by simp [List.isEmpty_iff] at hb; simp [hb]
      omega
    · by_cases hf : flush batch
      · simp only [ingestLoop, hb, hf, if_false, if_true, Bool.false_eq_true] at h
        obtain rfl : { res with
            successfulRecords := res.successfulRecords + batch.length } = fr := by
          simpa using h
        simp only []
        omega
      · simp only [ingestLoop, hb, hf, if_false, Bool.false_eq_true] at h
        simp at h
  | cons line rest ih =>
    intro res batch fr h hinv
    rcases hp : parseLine line with e | record
    · simp only [ingestLoop, hp] at h
      exact ih _ _ _ h (by simp; omega)
    · rcases ho : toObservation record stationID with e2 | obs
      · simp only [ingestLoop, hp, ho] at h
        exact ih _ _ _ h (by simp; omega)
      · by_cases hfull : batchSize ≤ (batch ++ [obs]).length
        · by_cases hfl : flush (batch ++ [obs])
          · simp only [ingestLoop, hp, ho, hfull, hfl, if_true] at h
            exact ih _ _ _ h (by simp; omega)
          · simp only [ingestLoop, hp, ho, hfull, hfl, if_true, if_false,
              Bool.false_eq_true] at h
            simp at h
        · simp only [ingestLoop, hp, ho, hfull, if_false] at h
          exact ih _ _ _ h (by simp; omega)

/-- Membership in the `dropLast` of a cons. -/
theorem mem_dropLast_cons {α : Type} {a b : α} {l : List α}
    (hb : b ∈ (a :: l).dropLast) : (b = a ∧ l ≠ []) ∨ b ∈ l.dropLast := by
  cases l with
  | nil => simp at hb
  | cons x xs =>
    rw [List.dropLast_cons₂] at hb
    rcases List.mem_cons.mp hb with rfl | hb
    · exact .inl ⟨rfl, by simp⟩
    · exact .inr hb

/-- Every batch in the flush trace is nonempty and no longer than the batch
size, provided the pending batch is shorter than the batch size. -/
theorem ingestLoop_trace_sizes (flush : List WeatherObservation → Bool)
    (batchSize : Nat) (stationID : String) :
    ∀ (lines : List String) (res : FileIngestionResult)
      (batch : List WeatherObservation), batch.length < batchSize →
      (∀ b ∈ (ingestLoop flush batchSize stationID lines res batch).2,
        b ≠ [] ∧ b.length ≤ batchSize) ∧
      (∀ b ∈ (ingestLoop flush batchSize stationID lines res batch).2.dropLast,
        b.length = batchSize) := by
  intro lines
  induction lines with
  | nil =>
    intro res batch hlt
    by_cases hb : batch.isEmpty
    · constructor
      · intro b hbmem; simp [ingestLoop, hb] at hbmem
      · intro b hbmem; simp [ingestLoop, hb] at hbmem
    · have hne : batch ≠ [] := by simpa [List.isEmpty_iff] using hb
      by_cases hf : flush batch
      · constructor
        · intro b hbmem
          simp only [ingestLoop, hb, hf, Bool.false_eq_true, if_false, if_true,
            List.mem_singleton] at hbmem
          subst hbmem
          exact ⟨hne, Nat.le_of_lt hlt⟩
        · intro b hbmem
          simp [ingestLoop, hb, hf] at hbmem
      · constructor
        · intro b hbmem
          simp only [ingestLoop, hb, hf, Bool.false_eq_true, if_false,
            List.mem_singleton] at hbmem
          subst hbmem
          exact ⟨hne, Nat.le_of_lt hlt⟩
        · intro b hbmem
          simp [ingestLoop, hb, hf] at hbmem
  | cons line rest ih =>
    intro res batch hlt
    rcases hp : parseLine line with e | record
    · simp only [ingestLoop, hp]
      exact ih _ _ hlt
    · rcases ho : toObservation record stationID with e2 | obs
      · simp only [ingestLoop, hp, ho]
        exact ih _ _ hlt
      · have hlen : (batch ++ [obs]).length = batch.length + 1 := by simp
        by_cases hfull : batchSize ≤ (batch ++ [obs]).length
        · have hexact : (batch ++ [obs]).length = batchSize := by omega
          by_cases hfl : flush (batch ++ [obs])
          · simp only [ingestLoop, hp, ho, hfull, hfl, if_true]
            constructor
            · intro b hbmem
              rcases List.mem_cons.mp hbmem with rfl | hbmem
              · exact ⟨by simp, Nat.le_of_eq hexact⟩
              · exact ((ih _ [] (by simp only [List.length_nil]; omega)).1) b hbmem
            · intro b hbmem
              rcases mem_dropLast_cons hbmem with ⟨rfl, _⟩ | hbmem
              · exact hexact
              · exact ((ih _ [] (by simp only [List.length_nil]; omega)).2) b hbmem
          · simp only [ingestLoop, hp, ho, hfull, hfl, Bool.false_eq_true,
              if_true, if_false]
            constructor
            · intro b hbmem
              rcases List.mem_singleton.mp hbmem with rfl
              exact ⟨by simp, Nat.le_of_eq hexact⟩
            · intro b hbmem
              simp at hbmem
        · simp only [ingestLoop, hp, ho, hfull, if_false]
          exact ih _ _ (by omega)

/-- The loop result is an error exactly when some flushed batch failed. -/
theorem ingestLoop_error_iff (flush : List WeatherObservation → Bool)
    (batchSize : Nat) (stationID : String) :
    ∀ (lines : List String) (res : FileIngestionResult)
      (batch : List WeatherObservation),
      (∃ e, (ingestLoop flush batchSize stationID lines res batch).1 = .error e) ↔
      (∃ b ∈ (ingestLoop flush batchSize stationID lines res batch).2,
        flush b = false) := by
  intro lines
  induction lines with
  | nil =>
    intro res batch
    by_cases hb : batch.isEmpty
    · simp [ingestLoop, hb]
    · by_cases hf : flush batch
      · simp [ingestLoop, hb, hf]
      · simp [ingestLoop, hb, hf]
  | cons line rest ih =>
    intro res batch
    rcases hp : parseLine line with e | record
    · simp only [ingestLoop, hp]
      exact ih _ _
    · rcases ho : toObservation record stationID with e2 | obs
      · simp only [ingestLoop, hp, ho]
        exact ih _ _
      · by_cases hfull : batchSize ≤ (batch ++ [obs]).length
        · by_cases hfl : flush (batch ++ [obs])
          · simp only [ingestLoop, hp, ho, hfull, hfl, if_true]
            rw [ih]
            constructor
            · rintro ⟨b, hbmem, hbf⟩
              exact ⟨b, List.mem_cons_of_mem _ hbmem, hbf⟩
            · rintro ⟨b, hbmem, hbf⟩
              rcases List.mem_cons.mp hbmem with rfl | hbmem
              · rw [hfl] at hbf; cases hbf
              · exact ⟨b, hbmem, hbf⟩
          · simp only [ingestLoop, hp, ho, hfull, hfl, Bool.false_eq_true,
              if_true, if_false]
            simp [hfl]
        · simp only [ingestLoop, hp, ho, hfull, if_false]
          exact ih _ _

/-- `normalizedObs` drops a line whose parse fails. -/
theorem normalizedObs_cons_parse_error (stationID line : String)
    (rest : List String) (e : ParseError) (hp : parseLine line = .error e) :
    normalizedObs stationID (line :: rest) = normalizedObs stationID rest := by
  simp [normalizedObs, List.filterMap_cons, hp]

/-- `normalizedObs` drops a line whose normalization fails. -/
theorem normalizedObs_cons_conv_error (stationID line : String)
    (rest : List String) (record : RawWeatherRecord) (e : ValidationError)
    (hp : parseLine line = .ok record)
    (ho : toObservation record stationID = .error e) :
    normalizedObs stationID (line :: rest) = normalizedObs stationID rest := by
  simp [normalizedObs, List.filterMap_cons, hp, ho]

/-- `normalizedObs` keeps a line that parses and normalizes. -/
theorem normalizedObs_cons_ok (stationID line : String) (rest : List String)
    (record : RawWeatherRecord) (obs : WeatherObservation)
    (hp : parseLine line = .ok record)
    (ho : toObservation record stationID = .ok obs) :
    normalizedObs stationID (line :: rest) = obs :: normalizedObs stationID rest := by
  simp [normalizedObs, List.filterMap_cons, hp, ho]

/-- On normal completion the flushed batches cover, in order, exactly the
pending batch followed by every observation the lines normalize to (the
final partial batch included). -/
theorem ingestLoop_ok_join (flush : List WeatherObservation → Bool)
    (batchSize : Nat) (stationID : String) :
    ∀ (lines : List String) (res : FileIngestionResult)
      (batch : List WeatherObservation) (fr : FileIngestionResult),
      (ingestLoop flush batchSize stationID lines res batch).1 = .ok fr →
      (ingestLoop flush batchSize stationID lines res batch).2.flatten =
        batch ++ normalizedObs stationID lines := by
  intro lines
  induction lines with
  | nil =>
    intro res batch fr h
    by_cases hb : batch.isEmpty
    · have : batch = [] := List.isEmpty_iff.mp hb
      simp [ingestLoop, hb, this, normalizedObs]
    · by_cases hf : flush batch
      · simp [ingestLoop, hb, hf, normalizedObs]
      · simp only [ingestLoop, hb, hf, Bool.false_eq_true, if_false] at h
        simp at h
  | cons line rest ih =>
    intro res batch fr h
    rcases hp : parseLine line with e | record
    · simp only [ingestLoop, hp] at h ⊢
      rw [ih _ _ _ h, normalizedObs_cons_parse_error _ _ _ _ hp]
    · rcases ho : toObservation record stationID with e2 | obs
      · simp only [ingestLoop, hp, ho] at h ⊢
        rw [ih _ _ _ h, normalizedObs_cons_conv_error _ _ _ _ _ hp ho]
      · by_cases hfull : batchSize ≤ (batch ++ [obs]).length
        · by_cases hfl : flush (batch ++ [obs])
          · simp only [ingestLoop, hp, ho, hfull, hfl, if_true] at h ⊢
            rw [List.flatten_cons, ih _ _ _ h,
              normalizedObs_cons_ok _ _ _ _ _ hp ho]
            simp
          · simp only [ingestLoop, hp, ho, hfull, hfl, Bool.false_eq_true,
              if_true, if_false] at h
            simp at h
        · simp only [ingestLoop, hp, ho, hfull, if_false] at h ⊢
          rw [ih _ _ _ h, normalizedObs_cons_ok _ _ _ _ _ hp ho]
          simp


/-- C3 counterexample: two different malformed lines produce the identical
parse error (in Go, both yield the same string "invalid line format:
expected 4 fields, got 2"), so the `MalformedRecord` error produced by
`parseLine` does not carry the offending line. -/
theorem C3_counterexample :
    parseLine "a\tb" = parseLine "c\td" ∧
    ("a\tb" : String) ≠ "c\td" ∧
    parseLine "a\tb" = .error (.fieldCount 2) :=
  ⟨by decide, by decide, by decide⟩

/-- C3 (amended): `parseLine` succeeds and returns a RawRecord exactly when
the line splits on tab into 4 fields whose 3 numeric fields parse as
integers after trimming; otherwise it fails with an error identifying the
failure (observed field count, or the offending numeric field), though not
carrying the full line.  In the file loop such a failure increments the
failed-record counter by one, adds nothing to the batch, and scanning
continues with the next line. -/
theorem C3_parse_contract :
    (∀ line : String,
      (∃ r, parseLine line = .ok r) ↔
        (∃ p0 p1 p2 p3, splitOnTab line = [p0, p1, p2, p3] ∧
          (atoi (trimSpace p1)).isSome ∧ (atoi (trimSpace p2)).isSome ∧
          (atoi (trimSpace p3)).isSome)) ∧
    (∀ (flush : List WeatherObservation → Bool) (batchSize : Nat)
        (stationID line : String) (rest : List String)
        (res : FileIngestionResult) (batch : List WeatherObservation)
        (e : ParseError), parseLine line = .error e →
      ingestLoop flush batchSize stationID (line :: rest) res batch =
        ingestLoop flush batchSize stationID rest
          ⟨res.totalRecords + 1, res.successfulRecords, res.failedRecords + 1⟩
          batch) :=
  ⟨parseLine_ok_iff,
   fun flush batchSize stationID line rest res batch e hp =>
    ingestLoop_parse_error_step flush batchSize stationID line rest res batch e hp⟩

/-- C3 witness: the step equation applied to the malformed line `a<tab>b`
with empty counters and batch. -/
theorem C3_parse_contract_witness :
    ingestLoop (fun _ => true) 2 "S" ["a\tb"] ⟨0, 0, 0⟩ [] =
      ingestLoop (fun _ => true) 2 "S" [] ⟨1, 0, 1⟩ [] :=
  C3_parse_contract.2 (fun _ => true) 2 "S" "a\tb" [] ⟨0, 0, 0⟩ []
    (.fieldCount 2) (by decide)

/-- C10: a file that `ingestFile` processes to completion without error has
`TotalRecords = SuccessfulRecords + FailedRecords`. -/
theorem C10_record_count_balance (flush : List WeatherObservation → Bool)
    (batchSize : Nat) (fileName : String) (lines : List String)
    (fr : FileIngestionResult)
    (h : ingestFile flush batchSize fileName lines = .ok fr) :
    fr.totalRecords = fr.successfulRecords + fr.failedRecords :=
  ingestLoop_ok_counts flush batchSize (stripExtension fileName) lines
    ⟨0, 0, 0⟩ [] fr h (by simp)

/-- C10 witness: a two-line file with one good and one malformed record,
always-committing flush, batch size 1. -/
theorem C10_record_count_balance_witness :
    ∃ fr, ingestFile (fun _ => true) 1 "stn.txt" ["20230115\t1\t2\t3", "bad"] =
        .ok fr ∧
      fr.totalRecords = fr.successfulRecords + fr.failedRecords :=
  ⟨⟨2, 1, 1⟩, by decide,
   C10_record_count_balance (fun _ => true) 1 "stn.txt"
     ["20230115\t1\t2\t3", "bad"] ⟨2, 1, 1⟩ (by decide)⟩

/-- C5: for every RawRecord and station identifier, `ToObservation` fails
with the `InvalidDate` validation error exactly when the date field is not
an 8-digit `YYYYMMDD` calendar date, and returns an Observation (no error)
exactly when it is. -/
theorem C5_invalid_date_exactly (r : RawWeatherRecord) (sid : String) :
    ((∃ obs, toObservation r sid = .ok obs) ↔ isValidYYYYMMDD r.date = true) ∧
    ((toObservation r sid =
        .error ⟨"date", r.date, "invalid date format, expected YYYYMMDD"⟩) ↔
      isValidYYYYMMDD r.date = false) := by
  cases hv : isValidYYYYMMDD r.date with
  | false =>
    have hnone : parseDate8 r.date = none := parseDate8_none _ hv
    simp [toObservation, hnone]
  | true =>
    obtain ⟨d, hd⟩ := parseDate8_some _ hv
    simp [toObservation, hd]

/-- C7: every aggregate computed by `CalculateYearlyStatistics` has each
valid-value count bounded by the observation count. -/
theorem C7_valid_counts_le (table : List WeatherObservation) (sid : String)
    (year : Nat) :
    (calculateYearlyStatistics table sid year).validMaxTempCount ≤
        (calculateYearlyStatistics table sid year).observationCount ∧
    (calculateYearlyStatistics table sid year).validMinTempCount ≤
        (calculateYearlyStatistics table sid year).observationCount ∧
    (calculateYearlyStatistics table sid year).validPrecipitationCount ≤
        (calculateYearlyStatistics table sid year).observationCount := by
  refine ⟨?_, ?_, ?_⟩ <;>
    simp only [calculateYearlyStatistics] <;>
    exact List.length_filterMap_le _ _

/-- C1: on a valid date, every non-sentinel raw field is converted by
dividing by 10 (temperatures) or by 100 (precipitation), each field
independently; the example line yields 25 °C, 15 °C and 1 cm. -/
theorem C1_unit_conversion :
    (∀ (r : RawWeatherRecord) (sid : String), isValidYYYYMMDD r.date = true →
      ∃ obs, toObservation r sid = .ok obs ∧
        (r.maxTemperatureTenths ≠ -9999 →
          obs.maxTemperatureCelsius = some ((r.maxTemperatureTenths : Rat) / 10)) ∧
        (r.minTemperatureTenths ≠ -9999 →
          obs.minTemperatureCelsius = some ((r.minTemperatureTenths : Rat) / 10)) ∧
        (r.precipitationTenths ≠ -9999 →
          obs.precipitationCm = some ((r.precipitationTenths : Rat) / 100))) ∧
    (∃ rec, parseLine "20230115\t250\t150\t100" = .ok rec ∧
      toObservation rec "TEST001" =
        .ok ⟨"TEST001", ⟨2023, 1, 15⟩, some 25, some 15, some 1⟩) := by
  constructor
  · intro r sid h
    obtain ⟨d, hd⟩ := parseDate8_some _ h
    refine ⟨⟨sid, d,
      if r.maxTemperatureTenths = -9999 then none
        else some ((r.maxTemperatureTenths : Rat) / 10),
      if r.minTemperatureTenths = -9999 then none
        else some ((r.minTemperatureTenths : Rat) / 10),
      if r.precipitationTenths = -9999 then none
        else some ((r.precipitationTenths : Rat) / 100)⟩,
      by simp [toObservation, hd], ?_, ?_, ?_⟩ <;>
      intro hne <;> simp [hne]
  · refine ⟨⟨"20230115", 250, 150, 100⟩, by decide, ?_⟩
    have hd : parseDate8 "20230115" = some ⟨2023, 1, 15⟩ := by decide
    simp [toObservation, hd]
    norm_num

/-- C1 witness: the general statement applied to the record
`(20230115, -10, 5, 42)` at station `X`. -/
theorem C1_unit_conversion_witness :
    ∃ obs, toObservation ⟨"20230115", -10, 5, 42⟩ "X" = .ok obs ∧
      ((-10 : Int) ≠ -9999 →
        obs.maxTemperatureCelsius = some (((-10 : Int) : Rat) / 10)) ∧
      ((5 : Int) ≠ -9999 →
        obs.minTemperatureCelsius = some (((5 : Int) : Rat) / 10)) ∧
      ((42 : Int) ≠ -9999 →
        obs.precipitationCm = some (((42 : Int) : Rat) / 100)) :=
  C1_unit_conversion.1 ⟨"20230115", -10, 5, 42⟩ "X" (by decide)

/-- C2: on a valid date, every raw field equal to `-9999` maps to an absent
observation field, per field and independently of the other two; the
all-sentinel record is valid and yields all three fields absent. -/
theorem C2_sentinel_absent :
    (∀ (r : RawWeatherRecord) (sid : String), isValidYYYYMMDD r.date = true →
      ∃ obs, toObservation r sid = .ok obs ∧
        (r.maxTemperatureTenths = -9999 → obs.maxTemperatureCelsius = none) ∧
        (r.minTemperatureTenths = -9999 → obs.minTemperatureCelsius = none) ∧
        (r.precipitationTenths = -9999 → obs.precipitationCm = none)) ∧
    (∀ (sid date : String), isValidYYYYMMDD date = true →
      ∃ d, parseDate8 date = some d ∧
        toObservation ⟨date, -9999, -9999, -9999⟩ sid =
          .ok ⟨sid, d, none, none, none⟩) := by
  constructor
  · intro r sid h
    obtain ⟨d, hd⟩ := parseDate8_some _ h
    refine ⟨⟨sid, d,
      if r.maxTemperatureTenths = -9999 then none
        else some ((r.maxTemperatureTenths : Rat) / 10),
      if r.minTemperatureTenths = -9999 then none
        else some ((r.minTemperatureTenths : Rat) / 10),
      if r.precipitationTenths = -9999 then none
        else some ((r.precipitationTenths : Rat) / 100)⟩,
      by simp [toObservation, hd], ?_, ?_, ?_⟩ <;>
      intro heq <;> simp [heq]
  · intro sid date h
    obtain ⟨d, hd⟩ := parseDate8_some _ h
    exact ⟨d, hd, by simp [toObservation, hd]⟩

/-- C2 witness: the general statement applied to `(20230115, -9999, 150,
100)` and to the all-sentinel record with date `20230115`. -/
theorem C2_sentinel_absent_witness :
    (∃ obs, toObservation ⟨"20230115", -9999, 150, 100⟩ "X" = .ok obs ∧
      ((-9999 : Int) = -9999 → obs.maxTemperatureCelsius = none) ∧
      ((150 : Int) = -9999 → obs.minTemperatureCelsius = none) ∧
      ((100 : Int) = -9999 → obs.precipitationCm = none)) ∧
    (∃ d, parseDate8 "20230115" = some d ∧
      toObservation ⟨"20230115", -9999, -9999, -9999⟩ "X" =
        .ok ⟨"X", d, none, none, none⟩) :=
  ⟨C2_sentinel_absent.1 ⟨"20230115", -9999, 150, 100⟩ "X" (by decide),
   C2_sentinel_absent.2 "X" "20230115" (by decide)⟩

/-- The flush trace of one `ingestFile` run: the batches handed to
`CreateObservationsBatch`, in call order. -/
def ingestFileTrace (flush : List WeatherObservation → Bool) (batchSize : Nat)
    (fileName : String) (lines : List String) :
    List (List WeatherObservation) :=
  (ingestLoop flush batchSize (stripExtension fileName) lines ⟨0, 0, 0⟩ []).2

/-- A file whose ingestion fails contributes one error string to the run
result and `IngestDirectory` continues with the remaining files. -/
theorem processFiles_error_step (flush : List WeatherObservation → Bool)
    (batchSize : Nat) (name : String) (lines : List String)
    (rest : List (String × List String)) (acc : IngestionResult) (e : String)
    (h : ingestFile flush batchSize name lines = .error e) :
    processFiles flush batchSize ((name, lines) :: rest) acc =
      processFiles flush batchSize rest
        { acc with errors := acc.errors ++ [fileErrorMsg name e] } := by
  simp only [processFiles, h]

/-- C4: with a positive configured batch size, every flush is of a nonempty
batch of at most the batch size; every flush but the last is of a full
batch (so a batch is flushed whenever it reaches the batch size); the file
fails exactly when some flush fails; on success the flushes cover exactly
the normalized observations of the file, the remaining partial batch
included; and a failed file adds one error string to the run result while
the run continues with the next file. -/
theorem C4_batch_flush (flush : List WeatherObservation → Bool)
    (batchSize : Nat) (fileName : String) (lines : List String)
    (h : 0 < batchSize) :
    (∀ b ∈ ingestFileTrace flush batchSize fileName lines,
      b ≠ [] ∧ b.length ≤ batchSize) ∧
    (∀ b ∈ (ingestFileTrace flush batchSize fileName lines).dropLast,
      b.length = batchSize) ∧
    ((∃ e, ingestFile flush batchSize fileName lines = .error e) ↔
      (∃ b ∈ ingestFileTrace flush batchSize fileName lines,
        flush b = false)) ∧
    (∀ fr, ingestFile flush batchSize fileName lines = .ok fr →
      (ingestFileTrace flush batchSize fileName lines).flatten =
        normalizedObs (stripExtension fileName) lines) ∧
    (∀ (rest : List (String × List String)) (acc : IngestionResult)
        (e : String),
      ingestFile flush batchSize fileName lines = .error e →
      processFiles flush batchSize ((fileName, lines) :: rest) acc =
        processFiles flush batchSize rest
          { acc with errors := acc.errors ++ [fileErrorMsg fileName e] }) := by
  have hlt : ([] : List WeatherObservation).length < batchSize := by
    simpa using h
  refine ⟨(ingestLoop_trace_sizes flush batchSize _ lines ⟨0, 0, 0⟩ [] hlt).1,
    (ingestLoop_trace_sizes flush batchSize _ lines ⟨0, 0, 0⟩ [] hlt).2,
    ingestLoop_error_iff flush batchSize _ lines ⟨0, 0, 0⟩ [], ?_, ?_⟩
  · intro fr hok
    simpa using ingestLoop_ok_join flush batchSize _ lines ⟨0, 0, 0⟩ [] fr hok
  · intro rest acc e he
    exact processFiles_error_step flush batchSize fileName lines rest acc e he

/-- C4 witness: three good lines, batch size 2, always-committing flush:
the flush trace covers exactly the normalized observations. -/
theorem C4_batch_flush_witness :
    (ingestFileTrace (fun _ => true) 2 "w.txt"
        ["20230101\t1\t2\t3", "20230102\t4\t5\t6", "20230103\t7\t8\t9"]).flatten =
      normalizedObs (stripExtension "w.txt")
        ["20230101\t1\t2\t3", "20230102\t4\t5\t6", "20230103\t7\t8\t9"] :=
  (C4_batch_flush (fun _ => true) 2 "w.txt"
      ["20230101\t1\t2\t3", "20230102\t4\t5\t6", "20230103\t7\t8\t9"]
      (by decide)).2.2.2.1 ⟨3, 3, 0⟩ (by decide)

/-- Whether an `Except` is an error. -/
def isErrorB {ε α : Type} : Except ε α → Bool
  | .error _ => true
  | .ok _ => false

/-- The run result accumulates exactly one error string per failed file. -/
theorem processFiles_errors_length (flush : List WeatherObservation → Bool)
    (batchSize : Nat) :
    ∀ (files : List (String × List String)) (acc : IngestionResult),
      (processFiles flush batchSize files acc).errors.length =
        acc.errors.length +
          files.countP (fun f => isErrorB (ingestFile flush batchSize f.1 f.2)) := by
  intro files
  induction files with
  | nil => intro acc; simp [processFiles]
  | cons f rest ih =>
    obtain ⟨name, lines⟩ := f
    intro acc
    rcases hf : ingestFile flush batchSize name lines with e | fr
    · simp only [processFiles, hf, ih, List.countP_cons]
      simp [isErrorB, hf]
      omega
    · simp only [processFiles, hf, ih, List.countP_cons]
      simp [isErrorB, hf]

/-- `countP` over a replicated element whose test holds. -/
theorem countP_replicate_true {α : Type} (p : α → Bool) (a : α) (n : Nat)
    (h : p a = true) : (List.replicate n a).countP p = n := by
  induction n with
  | zero => simp
  | succ k ih => simp [List.replicate_succ, List.countP_cons, h, ih]

/-- C9 counterexample: the run-level error list is not capped by any fixed
bound.  A run over 11 failing files buffers all 11 error strings in the
result (more than the only fixed bound in the system, the display cap of
10), and for every candidate cap there is a run whose result buffers more
error strings than it. -/
theorem C9_counterexample :
    (∃ res, ingestDirectory (fun _ => false) 1
        (List.replicate 11 ("bad.txt", ["20230115\t1\t2\t3"])) = .ok res ∧
      res.errors.length = 11 ∧ 10 < res.errors.length) ∧
    ¬ ∃ cap : Nat, ∀ (flush : List WeatherObservation → Bool) (batchSize : Nat)
        (files : List (String × List String)) (res : IngestionResult),
        ingestDirectory flush batchSize files = .ok res →
        res.errors.length ≤ cap := by
  have hbad : isErrorB
      (ingestFile (fun _ => false) 1 "bad.txt" ["20230115\t1\t2\t3"]) = true := by
    decide
  constructor
  · refine ⟨processFiles (fun _ => false) 1
        (List.replicate 11 ("bad.txt", ["20230115\t1\t2\t3"]))
        ⟨11, 0, 0, 0, []⟩, ?_, ?_⟩
    · simp [ingestDirectory]
    · rw [processFiles_errors_length]
      rw [countP_replicate_true
        (fun f => isErrorB (ingestFile (fun _ => false) 1 f.1 f.2))
        ("bad.txt", ["20230115\t1\t2\t3"]) 11 (by exact hbad)]
      simp
  · rintro ⟨cap, hcap⟩
    have hne : (List.replicate (cap + 1)
        ("bad.txt", ["20230115\t1\t2\t3"])).isEmpty = false := by
      simp [List.isEmpty_iff]
    have hok : ingestDirectory (fun _ => false) 1
        (List.replicate (cap + 1) ("bad.txt", ["20230115\t1\t2\t3"])) =
        .ok (processFiles (fun _ => false) 1
          (List.replicate (cap + 1) ("bad.txt", ["20230115\t1\t2\t3"]))
          ⟨cap + 1, 0, 0, 0, []⟩) := by
      simp [ingestDirectory, hne]
    have hlen := processFiles_errors_length (fun _ => false) 1
      (List.replicate (cap + 1) ("bad.txt", ["20230115\t1\t2\t3"]))
      ⟨cap + 1, 0, 0, 0, []⟩
    rw [countP_replicate_true
      (fun f => isErrorB (ingestFile (fun _ => false) 1 f.1 f.2))
      ("bad.txt", ["20230115\t1\t2\t3"]) (cap + 1) (by exact hbad)] at hlen
    have := hcap (fun _ => false) 1 _ _ hok
    simp at hlen
    omega

/-- C9 (amended): the run result buffers one error string per failed file,
with no fixed cap; the cap-and-summarize behaviour lives in the ingester
CLI, which prints at most 10 of the buffered error strings and reports the
remainder only as an overflow count. -/
theorem C9_error_reporting (flush : List WeatherObservation → Bool)
    (batchSize : Nat) (files : List (String × List String))
    (h : files ≠ []) :
    ∃ res, ingestDirectory flush batchSize files = .ok res ∧
      res.errors.length =
        files.countP (fun f => isErrorB (ingestFile flush batchSize f.1 f.2)) ∧
      (displayedErrors res.errors).length = min res.errors.length 10 ∧
      (10 < res.errors.length →
        overflowCount res.errors = res.errors.length - 10) := by
  have hne : files.isEmpty = false := by simp [List.isEmpty_iff, h]
  refine ⟨processFiles flush batchSize files
      ⟨files.length, 0, 0, 0, []⟩, ?_, ?_, ?_, ?_⟩
  · simp [ingestDirectory, hne]
  · rw [processFiles_errors_length]; simp
  · simp [displayedErrors, Nat.min_comm]
  · intro hover
    simp [overflowCount, hover]

/-- C9 witness: a single failing file. -/
theorem C9_error_reporting_witness :
    ∃ res, ingestDirectory (fun _ => false) 1
        [("bad.txt", ["20230115\t1\t2\t3"])] = .ok res ∧
      res.errors.length =
        [("bad.txt", ["20230115\t1\t2\t3"])].countP
          (fun f => isErrorB (ingestFile (fun _ => false) 1 f.1 f.2)) ∧
      (displayedErrors res.errors).length = min res.errors.length 10 ∧
      (10 < res.errors.length →
        overflowCount res.errors = res.errors.length - 10) :=
  C9_error_reporting (fun _ => false) 1 [("bad.txt", ["20230115\t1\t2\t3"])]
    (by decide)

/-- The year loop visits every year, whatever the repository oracles do. -/
theorem calcYears_visited (calcF : String → Nat → Except String WeatherStatistics)
    (save : WeatherStatistics → Bool) (stationID : String) :
    ∀ ys : List Nat, (calcYears calcF save stationID ys).visited =
      ys.map (fun y => (stationID, y)) := by
  intro ys
  induction ys with
  | nil => rfl
  | cons y ys ih =>
    rcases hc : calcF stationID y with e | stats
    · simp [calcYears, hc, ih]
    · by_cases hn : stats.observationCount > 0
      · by_cases hs : save stats
        · simp [calcYears, hc, hn, hs, ih]
        · simp [calcYears, hc, hn, hs, ih]
      · simp [calcYears, hc, hn, ih]

/-- The station loop visits every station/year pair, whatever the
repository oracles do: no per-pair failure aborts the recomputation. -/
theorem calcStations_visited
    (calcF : String → Nat → Except String WeatherStatistics)
    (save : WeatherStatistics → Bool) :
    ∀ stations : List String,
      (calcStations calcF save stations).visited = allPairs stations := by
  intro stations
  induction stations with
  | nil => rfl
  | cons sid rest ih =>
    simp [calcStations, allPairs, calcYears_visited, ih]

/-- A pair saved by the year loop was computed with a positive observation
count and a successful upsert. -/
theorem calcYears_saved_mem
    (calcF : String → Nat → Except String WeatherStatistics)
    (save : WeatherStatistics → Bool) (stationID : String) :
    ∀ (ys : List Nat) (p : String × Nat),
      p ∈ (calcYears calcF save stationID ys).saved →
      p.1 = stationID ∧ p.2 ∈ ys ∧
        ∃ stats, calcF stationID p.2 = .ok stats ∧
          stats.observationCount > 0 ∧ save stats = true := by
  intro ys
  induction ys with
  | nil => intro p hp; simp [calcYears] at hp
  | cons y ys ih =>
    intro p hp
    rcases hc : calcF stationID y with e | stats
    · simp only [calcYears, hc] at hp
      obtain ⟨h1, h2, h3⟩ := ih p hp
      exact ⟨h1, List.mem_cons_of_mem _ h2, h3⟩
    · by_cases hn : stats.observationCount > 0
      · by_cases hs : save stats
        · simp only [calcYears, hc, hn, hs, if_pos, if_true] at hp
          rcases List.mem_cons.mp hp with rfl | hp2
          · exact ⟨rfl, List.mem_cons_self _ _, stats, hc, hn, hs⟩
          · obtain ⟨h1, h2, h3⟩ := ih p hp2
            exact ⟨h1, List.mem_cons_of_mem _ h2, h3⟩
        · simp only [calcYears, hc, hn, hs, if_pos, Bool.false_eq_true,
            if_false] at hp
          obtain ⟨h1, h2, h3⟩ := ih p hp
          exact ⟨h1, List.mem_cons_of_mem _ h2, h3⟩
      · simp only [calcYears, hc, hn, if_neg hn] at hp
        obtain ⟨h1, h2, h3⟩ := ih p hp
        exact ⟨h1, List.mem_cons_of_mem _ h2, h3⟩

/-- A pair saved by the station loop was computed with a positive
observation count and a successful upsert. -/
theorem calcStations_saved_mem
    (calcF : String → Nat → Except String WeatherStatistics)
    (save : WeatherStatistics → Bool) :
    ∀ (stations : List String) (p : String × Nat),
      p ∈ (calcStations calcF save stations).saved →
      ∃ stats, calcF p.1 p.2 = .ok stats ∧
        stats.observationCount > 0 ∧ save stats = true := by
  intro stations
  induction stations with
  | nil => intro p hp; simp [calcStations] at hp
  | cons sid rest ih =>
    intro p hp
    simp only [calcStations, List.mem_append] at hp
    rcases hp with hp | hp
    · obtain ⟨h1, _, h3⟩ := calcYears_saved_mem calcF save sid _ p hp
      rw [h1]
      exact h3
    · exact ih p hp

/-- The first component of a pair in `allPairs` is one of the stations. -/
theorem mem_allPairs_fst :
    ∀ (stations : List String) (p : String × Nat),
      p ∈ allPairs stations → p.1 ∈ stations := by
  intro stations
  induction stations with
  | nil => intro p hp; simp [allPairs] at hp
  | cons sid rest ih =>
    intro p hp
    simp only [allPairs, List.mem_append] at hp
    rcases hp with hp | hp
    · obtain ⟨y, _, rfl⟩ := List.mem_map.mp hp
      exact List.mem_cons_self _ _
    · exact List.mem_cons_of_mem _ (ih p hp)

/-- C6: a station/year pair whose computed aggregate has observation count
zero is never upserted, and the recomputation still visits every pair of
the enumerated catalog. -/
theorem C6_zero_count_not_saved (stationTable : List String)
    (calcF : String → Nat → Except String WeatherStatistics)
    (save : WeatherStatistics → Bool) (sid : String) (y : Nat)
    (stats : WeatherStatistics) (hcalc : calcF sid y = .ok stats)
    (hzero : stats.observationCount = 0) :
    (sid, y) ∉ (calculateAllStatistics stationTable calcF save).saved ∧
    (calculateAllStatistics stationTable calcF save).visited =
      allPairs (listStations stationTable 10000 0) := by
  constructor
  · intro hmem
    obtain ⟨stats2, hc2, hn2, _⟩ :=
      calcStations_saved_mem calcF save _ _ hmem
    rw [hcalc] at hc2
    cases hc2
    omega
  · exact calcStations_visited calcF save _

/-- C6 witness: an oracle that always reports an empty year. -/
theorem C6_zero_count_not_saved_witness :
    ("A", 1990) ∉ (calculateAllStatistics ["A"]
        (fun s y => .ok ⟨s, y, none, none, none, 0, 0, 0, 0⟩)
        (fun _ => true)).saved ∧
    (calculateAllStatistics ["A"]
        (fun s y => .ok ⟨s, y, none, none, none, 0, 0, 0, 0⟩)
        (fun _ => true)).visited =
      allPairs (listStations ["A"] 10000 0) :=
  C6_zero_count_not_saved ["A"]
    (fun s y => .ok ⟨s, y, none, none, none, 0, 0, 0, 0⟩) (fun _ => true)
    "A" 1990 ⟨"A", 1990, none, none, none, 0, 0, 0, 0⟩ rfl rfl

/-- C8 counterexample: with 10001 known stations the recomputation does not
enumerate them all — `ListStations(ctx, 10000, 0)` returns a single page of
10000 stations, so the station beyond the page is never visited for any
year, although it is a known station and 1985 is in the year range. -/
theorem C8_counterexample :
    "B" ∈ (List.replicate 10000 "A" ++ ["B"]) ∧
    (1985 : Nat) ∈ statYears ∧
    ("B", 1985) ∉ (calculateAllStatistics (List.replicate 10000 "A" ++ ["B"])
        (fun _ _ => .error "db down") (fun _ => true)).visited := by
  refine ⟨List.mem_append.mpr (Or.inr (List.mem_singleton.mpr rfl)),
    by decide, ?_⟩
  intro hmem
  have hpage : listStations (List.replicate 10000 "A" ++ ["B"]) 10000 0 =
      List.replicate 10000 "A" := by
    simp only [listStations, List.drop_zero]
    exact List.take_left' (by rw [List.length_replicate])
  rw [calculateAllStatistics, calcStations_visited, hpage] at hmem
  have := mem_allPairs_fst _ _ hmem
  have : ("B" : String) = "A" := List.eq_of_mem_replicate this
  simp at this

/-- C8 (amended): the recomputation enumerates one `ListStations` page of
at most 10000 stations — all known stations whenever the catalog holds at
most 10000 — and for each visits exactly the years 1985 through 2014
inclusive, for any behaviour of the compute and upsert oracles: a failure
computing or saving one pair never aborts the recomputation or hides
another pair. -/
theorem C8_recompute_catalog (stationTable : List String)
    (calcF : String → Nat → Except String WeatherStatistics)
    (save : WeatherStatistics → Bool) :
    (calculateAllStatistics stationTable calcF save).visited =
      allPairs (listStations stationTable 10000 0) ∧
    (∀ y, y ∈ statYears ↔ 1985 ≤ y ∧ y ≤ 2014) ∧
    (stationTable.length ≤ 10000 →
      listStations stationTable 10000 0 = stationTable) := by
  refine ⟨calcStations_visited calcF save _, ?_, ?_⟩
  · intro y
    rw [statYears, List.mem_range'_1]
    omega
  · intro hlen
    simp only [listStations, List.drop_zero]
    exact List.take_of_length_le hlen

/-- C8 witness: a one-station catalog is fully enumerated. -/
theorem C8_recompute_catalog_witness :
    listStations ["A"] 10000 0 = ["A"] :=
  (C8_recompute_catalog ["A"] (fun _ _ => .error "x")
    (fun _ => true)).2.2 (by decide)

end WeatherPlatform
